import Mathlib

/-!
Verification of the real-time axis control loop of the robotic-arm GUI
("GUI for Robotic Arm Control.py").

The Python source is shallowly embedded: Python floats are modelled as
rationals (ℚ) — every computation exercised by the theorems below is exact
in binary floating point as well (sums, products and comparisons of
dyadic-representable constants), so the ℚ model is faithful on the inputs
used.  The ambient wall clock (`time.time()`) is passed explicitly as an
argument.  Python `int()` truncation toward zero is modelled by `pyInt`.
Serial commands are modelled as structured `Command` values; their textual
serialization `"<channel>:<dir>:<speed>\n"` is injective on the commands the
program builds, so string comparison in the source coincides with `Command`
equality here.
-/

namespace RobotArm

/-- Python `int()` applied to a rational: truncation toward zero. -/
def pyInt (q : ℚ) : ℤ := if q < 0 then Int.ceil q else Int.floor q

/-- The seven motors of `MOTOR_MAP` in the source
(`{'M1': 1, 'M2': 2, 'M3': 3, 'M4': 4, 'S1': 5, 'S2': 6, 'S3': 7}`). -/
inductive Motor
  | M1 | M2 | M3 | M4 | S1 | S2 | S3
deriving DecidableEq, Repr

/-- `MOTOR_MAP`: wire channel of each motor. -/
def motorChannel : Motor → ℕ
  | .M1 => 1
  | .M2 => 2
  | .M3 => 3
  | .M4 => 4
  | .S1 => 5
  | .S2 => 6
  | .S3 => 7

/-- Direction character of an outgoing command: `'f'`, `'b'` or `'s'`. -/
inductive Direction
  | f | b | s
deriving DecidableEq, Repr

/-- One serial command `"<channel>:<direction>:<speed>\n"`. -/
structure Command where
  channel : ℕ
  dir : Direction
  speed : ℤ
deriving DecidableEq, Repr

/-- The stop command `"<channel>:s:0\n"` for a motor. -/
def stopCmd (m : Motor) : Command := ⟨motorChannel m, Direction.s, 0⟩

/-- Textual form of the direction character. -/
def Direction.char : Direction → String
  | .f => "f"
  | .b => "b"
  | .s => "s"

/-- Serialization of a command, as built by the f-strings in the source. -/
def Command.serialize (c : Command) : String :=
  toString c.channel ++ ":" ++ c.dir.char ++ ":" ++ toString c.speed ++ "\n"

/-! ### PID controller (source lines 20–49) -/

/-- State of `PIDController`.  `last_time = none` models Python `None`. -/
structure PIDController where
  kp : ℚ
  ki : ℚ
  kd : ℚ
  output_limits : ℚ × ℚ
  setpoint : ℚ
  last_error : ℚ
  integral_error : ℚ
  last_time : Option ℚ
deriving DecidableEq, Repr

/-- `PIDController.__init__(kp, ki, kd, output_limits)`. -/
def PIDController.init (kp ki kd : ℚ) (limits : ℚ × ℚ) : PIDController :=
  { kp := kp, ki := ki, kd := kd, output_limits := limits,
    setpoint := 0, last_error := 0, integral_error := 0, last_time := none }

/-- The default `output_limits=(-255, 255)` of the constructor. -/
def defaultLimits : ℚ × ℚ := (-255, 255)

/-- `PIDController.set_setpoint`. -/
def PIDController.set_setpoint (p : PIDController) (sp : ℚ) : PIDController :=
  { p with setpoint := sp, integral_error := 0, last_error := 0, last_time := none }

/-- `PIDController.update(current_value)`; `current_time` is the value of
`time.time()` at the call.  Returns the output together with the new state. -/
def PIDController.update (p : PIDController) (current_time current_value : ℚ) :
    ℚ × PIDController :=
  match p.last_time with
  | none => (0, { p with last_time := some current_time })
  | some lt =>
    let dt := current_time - lt
    if dt = 0 then (0, p)
    else
      let error := p.setpoint - current_value
      let integral := p.integral_error + error * dt
      let derivative := (error - p.last_error) / dt
      let output := p.kp * error + p.ki * integral + p.kd * derivative
      (max p.output_limits.1 (min p.output_limits.2 output),
       { p with integral_error := integral, last_error := error,
                last_time := some current_time })

/-! ### Claims C6 and C7: PID priming and output clamping -/

/-- C6: the first `update` call after construction or after any `set_setpoint`
returns `0`, because `last_time` is `none` exactly in those states and such a
call only primes the timestamp (leaving error and integral state untouched).
The embedded `update` is a total function, so no exception can be raised. -/
theorem pid_first_update_returns_zero :
    (∀ kp ki kd lim t v, ((PIDController.init kp ki kd lim).update t v).1 = 0) ∧
    (∀ (p : PIDController) (sp t v : ℚ), ((p.set_setpoint sp).update t v).1 = 0) ∧
    (∀ kp ki kd lim, (PIDController.init kp ki kd lim).last_time = none) ∧
    (∀ (p : PIDController) (sp : ℚ), (p.set_setpoint sp).last_time = none) ∧
    (∀ (p : PIDController) (t v : ℚ),
       ({ p with last_time := none } : PIDController).update t v =
         (0, { p with last_time := some t })) ∧
    (∀ (p : PIDController) (t v lt : ℚ),
       ((({ p with last_time := some lt } : PIDController).update t v).2.last_time).isSome
         = true) := by
  refine ⟨fun _ _ _ _ _ _ => rfl, fun _ _ _ _ => rfl, fun _ _ _ _ => rfl,
    fun _ _ => rfl, fun _ _ _ => rfl, fun p t v lt => ?_⟩
  simp only [PIDController.update]
  split
  · simp
  · simp

/-- C7 fails as stated: the claim quantifies over arbitrary output limits, but
with limits `[10, 20]` the first (priming) call to `update` returns `0`, which
is outside `[10, 20]`. -/
theorem pid_update_not_always_in_limits :
    ((PIDController.init 1 0 0 (10, 20)).update 0 0).1 = 0 ∧
    ¬ (10 ≤ ((PIDController.init 1 0 0 (10, 20)).update 0 0).1) := by
  constructor
  · rfl
  · intro h
    exact absurd h (by norm_num [PIDController.init, PIDController.update])

/-- C7 amended: for limits with `min ≤ 0 ≤ max` — satisfied by every instance
the program constructs, all of which use the default `(-255, 255)` — every value
returned by `update`, in any state and hence along any call sequence, lies
within `[min, max]`. -/
theorem pid_update_within_limits (p : PIDController) (t v : ℚ)
    (h1 : p.output_limits.1 ≤ 0) (h2 : 0 ≤ p.output_limits.2) :
    p.output_limits.1 ≤ (p.update t v).1 ∧ (p.update t v).1 ≤ p.output_limits.2 := by
  unfold PIDController.update
  split
  · exact ⟨h1, h2⟩
  · dsimp only
    split
    · exact ⟨h1, h2⟩
    · constructor
      · exact le_max_left _ _
      · exact max_le (le_trans h1 h2) (min_le_left _ _)

/-- Witness for `pid_update_within_limits` at the program's default limits. -/
theorem pid_update_within_limits_witness :
    ((PIDController.init (60/100) (5/1000) (1/10000) defaultLimits).output_limits.1 ≤ 0) ∧
    (0 ≤ (PIDController.init (60/100) (5/1000) (1/10000) defaultLimits).output_limits.2) ∧
    ((PIDController.init (60/100) (5/1000) (1/10000) defaultLimits).output_limits.1 ≤
       ((PIDController.init (60/100) (5/1000) (1/10000) defaultLimits).update 0 0).1 ∧
     ((PIDController.init (60/100) (5/1000) (1/10000) defaultLimits).update 0 0).1 ≤
       (PIDController.init (60/100) (5/1000) (1/10000) defaultLimits).output_limits.2) :=
  ⟨by norm_num [PIDController.init, defaultLimits],
   by norm_num [PIDController.init, defaultLimits],
   pid_update_within_limits _ 0 0
     (by norm_num [PIDController.init, defaultLimits])
     (by norm_num [PIDController.init, defaultLimits])⟩

/-! ### Controller-loop constants (source lines 226–227 and 512) -/

/-- `JOYSTICK_DEADZONE = 0.15`. -/
def JOYSTICK_DEADZONE : ℚ := 15/100

/-- `PID_TARGET_THRESHOLD = 5` (a Python `int`, compared against the integer
`abs(target - currentPosition)`). -/
def PID_TARGET_THRESHOLD : ℤ := 5

/-- `self.DPAD_DEBOUNCE_DELAY = 0.5`. -/
def DPAD_DEBOUNCE_DELAY : ℚ := 1/2

/-- `self.BUTTON_DEBOUNCE_DELAY = 0.3`. -/
def BUTTON_DEBOUNCE_DELAY : ℚ := 3/10

/-! ### Hold-mode (PID-driven) command resolution, source lines 575–588 -/

/-- Lines 581–584: direction from the sign of the PID output, with S2 and S3
using the map commented `# Reversed for S2 and S3` in the source. -/
def holdDirection (motor : Motor) (pid_output : ℚ) : Direction :=
  if motor = Motor.S2 ∨ motor = Motor.S3 then
    (if pid_output > 0 then Direction.f else Direction.b)
  else
    (if pid_output > 0 then Direction.b else Direction.f)

/-- Lines 579–588: the command resolved for an enabled (hold-mode) axis from
its target, current encoder value, and the PID output of this tick. -/
def holdResolve (motor : Motor) (target current : ℤ) (pid_output : ℚ) : Command :=
  if |target - current| > PID_TARGET_THRESHOLD then
    { channel := motorChannel motor,
      dir := holdDirection motor pid_output,
      speed := pyInt (min |pid_output| 255) }
  else
    { channel := motorChannel motor, dir := Direction.s, speed := 0 }

/-- C1 fails as stated: for axis S2 (one of the two axes the claim calls
mechanically reversed), target 100, current position 0 and PID output
60.15 > 0, the source maps the positive output to `'f'` (forward), not
backward, and the dispatched speed is the truncation 60, not
`min(|output|, 255) = 60.15`. -/
theorem hold_direction_claim_false :
    (holdResolve Motor.S2 100 0 (1203/20)).dir ≠ Direction.b ∧
    ((holdResolve Motor.S2 100 0 (1203/20)).speed : ℚ) ≠ min |(1203/20 : ℚ)| 255 := by
  constructor
  · norm_num [holdResolve, holdDirection, PID_TARGET_THRESHOLD]
    decide
  · norm_num [holdResolve, holdDirection, pyInt, PID_TARGET_THRESHOLD, min_def,
      abs_of_nonneg]

/-- C1 amended: for every holdable axis in hold mode with
`|target - currentPosition| > 5`, the dispatched direction is derived from the
sign of the PID output with a per-axis inversion — S2 and S3 map positive
output to forward and non-positive output to backward, every other axis maps
positive output to backward and non-positive to forward — and the speed is
`min(|output|, 255)` truncated to an integer. -/
theorem hold_dispatch_direction_speed (m : Motor) (tgt cur : ℤ) (out : ℚ)
    (hfar : |tgt - cur| > PID_TARGET_THRESHOLD) :
    (holdResolve m tgt cur out).speed = pyInt (min |out| 255) ∧
    ((m = Motor.S2 ∨ m = Motor.S3) →
       (holdResolve m tgt cur out).dir =
         (if out > 0 then Direction.f else Direction.b)) ∧
    (¬(m = Motor.S2 ∨ m = Motor.S3) →
       (holdResolve m tgt cur out).dir =
         (if out > 0 then Direction.b else Direction.f)) := by
  refine ⟨?_, ?_, ?_⟩
  · simp [holdResolve, hfar]
  · intro h
    simp [holdResolve, hfar, holdDirection, h]
  · intro h
    simp [holdResolve, hfar, holdDirection, h]

/-- Witness for `hold_dispatch_direction_speed` at axis M1, target 100,
current 0, output 60. -/
theorem hold_dispatch_direction_speed_witness :
    |(100 : ℤ) - 0| > PID_TARGET_THRESHOLD ∧
    ((holdResolve Motor.M1 100 0 60).speed = pyInt (min |(60 : ℚ)| 255) ∧
     ((Motor.M1 = Motor.S2 ∨ Motor.M1 = Motor.S3) →
        (holdResolve Motor.M1 100 0 60).dir =
          (if (60 : ℚ) > 0 then Direction.f else Direction.b)) ∧
     (¬(Motor.M1 = Motor.S2 ∨ Motor.M1 = Motor.S3) →
        (holdResolve Motor.M1 100 0 60).dir =
          (if (60 : ℚ) > 0 then Direction.b else Direction.f))) :=
  ⟨by decide, hold_dispatch_direction_speed Motor.M1 100 0 60 (by decide)⟩

/-! ### Manual (joystick) command resolution for the single-motor channels,
source lines 598–603 (L-stick Y → M1) and 615–620 (R-stick Y → M2) -/

/-- Lines 599–601 (identically 616–618): speed `int(abs(v)*255)` and direction
`'f' if v > deadzone else 'b' if v < -deadzone else 's'`.  The speed is
computed from `v` unconditionally — it is not forced to 0 inside the
deadzone. -/
def manualResolve (m : Motor) (v : ℚ) : Command :=
  { channel := motorChannel m,
    dir := if v > JOYSTICK_DEADZONE then Direction.f
           else if v < -JOYSTICK_DEADZONE then Direction.b
           else Direction.s,
    speed := pyInt (|v| * 255) }

/-- C2 fails as stated: at magnitude 0.5 the emitted speed is the truncation
`int(0.5*255) = 127`, not `round(0.5*255) = 128`; and at magnitude 0.10
(inside the deadzone) the emitted command has direction stop but speed
`int(0.10*255) = 25`, not 0 — the command is not `(channel, stop, 0)`. -/
theorem manual_speed_claim_false :
    (manualResolve Motor.M1 (1/2)).speed ≠ 128 ∧
    ((manualResolve Motor.M1 (1/10)).dir = Direction.s ∧
     (manualResolve Motor.M1 (1/10)).speed ≠ 0) := by
  refine ⟨?_, ?_, ?_⟩
  · norm_num [manualResolve, pyInt, abs_of_nonneg]
  · norm_num [manualResolve, JOYSTICK_DEADZONE]
  · norm_num [manualResolve, pyInt, abs_of_nonneg]

/-- C2 amended: for a continuous channel driving a single axis not in hold
mode (L-stick Y → M1, R-stick Y → M2), the command's speed is always
`int(|value| * 255)` (truncated, so magnitude 0.5 yields speed 127, and inside
the deadzone the speed is not forced to 0 — at magnitude 0.10 the command is
`(channel, stop, 25)`), and the direction is forward for `value > 0.15`,
backward for `value < -0.15`, and stop otherwise. -/
theorem manual_velocity_mapping (m : Motor) (v : ℚ) :
    (manualResolve m v).channel = motorChannel m ∧
    (manualResolve m v).speed = pyInt (|v| * 255) ∧
    (manualResolve m v).dir =
      (if v > JOYSTICK_DEADZONE then Direction.f
       else if v < -JOYSTICK_DEADZONE then Direction.b
       else Direction.s) ∧
    (manualResolve Motor.M1 (1/2)).speed = 127 ∧
    (manualResolve Motor.M1 (1/10)) = ⟨1, Direction.s, 25⟩ := by
  refine ⟨rfl, rfl, rfl, ?_, ?_⟩
  · norm_num [manualResolve, pyInt, abs_of_nonneg]
  · have h1 : (manualResolve Motor.M1 (1/10)).dir = Direction.s := by
      norm_num [manualResolve, JOYSTICK_DEADZONE]
    have h2 : (manualResolve Motor.M1 (1/10)).speed = 25 := by
      norm_num [manualResolve, pyInt, abs_of_nonneg]
    have h3 : (manualResolve Motor.M1 (1/10)).channel = 1 := rfl
    cases hm : manualResolve Motor.M1 (1/10)
    rw [hm] at h1 h2 h3
    simp_all

/-! ### Per-channel command deduplication

`last_commands` (source line 521) maps each motor to the last command string
sent on its channel; the initial value `""` is modelled as `none`.  The
send-if-changed pattern
`if cmd != last_commands[...]: self.send_command(cmd); last_commands[...] = cmd`
appears verbatim for the PID dispatch (lines 589–591), the M1 channel
(line 602), the M2 channel (line 619) and the S1 channel (line 634); it is
captured once by `dedupSend`. -/

/-- Send-if-changed on one channel: returns the commands actually written this
tick and the new `last_commands`. -/
def dedupSend (m : Motor) (cmd : Command) (last : Motor → Option Command) :
    List Command × (Motor → Option Command) :=
  if last m ≠ some cmd then ([cmd], Function.update last m (some cmd))
  else ([], last)

/-- Lines 598–603: the whole M1 (or M2, identically) manual tick section. -/
def manualStep (m : Motor) (v : ℚ) (last : Motor → Option Command) :
    List Command × (Motor → Option Command) :=
  dedupSend m (manualResolve m v) last

/-- Lines 588–591: dispatch of the resolved hold-mode command. -/
def holdDispatch (motor : Motor) (target current : ℤ) (pid_output : ℚ)
    (last : Motor → Option Command) : List Command × (Motor → Option Command) :=
  dedupSend motor (holdResolve motor target current pid_output) last

/-- Lines 632–633: the S1 bumper command (`f:255` on LB, `b:255` on RB,
`s:0` otherwise). -/
def s1Resolve (lb rb : Bool) : Command :=
  if lb then ⟨motorChannel Motor.S1, Direction.f, 255⟩
  else if rb then ⟨motorChannel Motor.S1, Direction.b, 255⟩
  else ⟨motorChannel Motor.S1, Direction.s, 0⟩

/-- Lines 632–634: the S1 tick section. -/
def s1Step (lb rb : Bool) (last : Motor → Option Command) :
    List Command × (Motor → Option Command) :=
  dedupSend Motor.S1 (s1Resolve lb rb) last

/-! ### Mutually exclusive bend pairs, source lines 606–612 and 623–629

One stick axis drives two motors depending on sign: `lx > deadzone` drives S2
and `lx < -deadzone` drives M4 (lines 606–612); `rx > deadzone` drives S3 and
`rx < -deadzone` drives M3 (lines 623–629).  `pos` is the motor of the
positive sign, `neg` of the negative sign. -/

/-- One tick of a bend-pair section.  Mirrors the source: in the deadzone,
if either stored command differs from its stop, both stops are sent
(negative-sign motor first) and recorded; on a drive whose command differs
from the stored one for the driven motor, the partner's stop is sent first,
then the drive, and both are recorded. -/
def pairStep (pos neg : Motor) (v : ℚ) (last : Motor → Option Command) :
    List Command × (Motor → Option Command) :=
  let speed : ℤ := pyInt (|v| * 255)
  if v > JOYSTICK_DEADZONE then
    let cmd : Command := ⟨motorChannel pos, Direction.f, speed⟩
    if last pos ≠ some cmd then
      ([stopCmd neg, cmd],
       Function.update (Function.update last pos (some cmd)) neg (some (stopCmd neg)))
    else ([], last)
  else if v < -JOYSTICK_DEADZONE then
    let cmd : Command := ⟨motorChannel neg, Direction.f, speed⟩
    if last neg ≠ some cmd then
      ([stopCmd pos, cmd],
       Function.update (Function.update last neg (some cmd)) pos (some (stopCmd pos)))
    else ([], last)
  else
    if last neg ≠ some (stopCmd neg) ∨ last pos ≠ some (stopCmd pos) then
      ([stopCmd neg, stopCmd pos],
       Function.update (Function.update last neg (some (stopCmd neg))) pos
         (some (stopCmd pos)))
    else ([], last)

/-- Lines 606–612: End-Effector bend, L-stick X: positive drives S2, negative
drives M4. -/
def leftBendStep (lx : ℚ) (last : Motor → Option Command) :
    List Command × (Motor → Option Command) :=
  pairStep Motor.S2 Motor.M4 lx last

/-- Lines 623–629: Lower-Link bend, R-stick X: positive drives S3, negative
drives M3. -/
def rightBendStep (rx : ℚ) (last : Motor → Option Command) :
    List Command × (Motor → Option Command) :=
  pairStep Motor.S3 Motor.M3 rx last

/-- The emission list of a bend-pair tick takes one of four shapes: nothing,
both stops, or the partner's stop followed by a forward drive of one member. -/
lemma pairStep_sent (pos neg : Motor) (v : ℚ) (last : Motor → Option Command) :
    (pairStep pos neg v last).1 = [] ∨
    (pairStep pos neg v last).1 = [stopCmd neg, stopCmd pos] ∨
    (∃ sp, (pairStep pos neg v last).1 =
       [stopCmd neg, ⟨motorChannel pos, Direction.f, sp⟩]) ∨
    (∃ sp, (pairStep pos neg v last).1 =
       [stopCmd pos, ⟨motorChannel neg, Direction.f, sp⟩]) := by
  by_cases hv1 : v > JOYSTICK_DEADZONE
  · by_cases hc1 : last pos ≠
        some (⟨motorChannel pos, Direction.f, pyInt (|v| * 255)⟩ : Command)
    · exact Or.inr (Or.inr (Or.inl ⟨pyInt (|v| * 255), by simp [pairStep, hv1, hc1]⟩))
    · push_neg at hc1
      exact Or.inl (by simp [pairStep, hv1, hc1])
  · by_cases hv2 : v < -JOYSTICK_DEADZONE
    · by_cases hc2 : last neg ≠
          some (⟨motorChannel neg, Direction.f, pyInt (|v| * 255)⟩ : Command)
      · exact Or.inr (Or.inr (Or.inr ⟨pyInt (|v| * 255), by simp [pairStep, hv1, hv2, hc2]⟩))
      · push_neg at hc2
        exact Or.inl (by simp [pairStep, hv1, hv2, hc2])
    · by_cases hs : last neg ≠ some (stopCmd neg) ∨ last pos ≠ some (stopCmd pos)
      · exact Or.inr (Or.inl (by simp [pairStep, hv1, hv2, hs]))
      · push_neg at hs
        exact Or.inl (by simp [pairStep, hv1, hv2, hs.1, hs.2])

/-- C5: in any tick of a bend-pair section, at most one of the emitted
commands is non-stop, and whenever a non-stop command for one member of the
pair is emitted, the tick's emission list is exactly the partner's explicit
stop followed by that command — so on a switch of the active member, the stop
for the previously active motor is sent before (in the same tick as) the new
command, and the two motors are never both commanded non-stop in one tick. -/
theorem pair_mutual_exclusion (pos neg : Motor) (v : ℚ)
    (last : Motor → Option Command) (hch : motorChannel pos ≠ motorChannel neg) :
    ((pairStep pos neg v last).1.countP (fun c => c.dir != Direction.s)) ≤ 1 ∧
    (∀ c ∈ (pairStep pos neg v last).1, c.dir ≠ Direction.s →
       c.channel = motorChannel pos →
       (pairStep pos neg v last).1 = [stopCmd neg, c]) ∧
    (∀ c ∈ (pairStep pos neg v last).1, c.dir ≠ Direction.s →
       c.channel = motorChannel neg →
       (pairStep pos neg v last).1 = [stopCmd pos, c]) := by
  rcases pairStep_sent pos neg v last with h | h | ⟨sp, h⟩ | ⟨sp, h⟩ <;>
      rw [h] <;>
      refine ⟨by simp [stopCmd, List.countP_cons, List.countP_nil],
        fun c hc hdir hchan => ?_, fun c hc hdir hchan => ?_⟩ <;>
      simp only [List.mem_cons, List.not_mem_nil, List.mem_singleton,
        or_false] at hc
  · rcases hc with e | e <;> rw [e] at hdir <;> exact absurd rfl hdir
  · rcases hc with e | e <;> rw [e] at hdir <;> exact absurd rfl hdir
  · rcases hc with e | e
    · rw [e] at hdir
      exact absurd rfl hdir
    · rw [e]
  · rcases hc with e | e
    · rw [e] at hdir
      exact absurd rfl hdir
    · rw [e] at hchan
      simp only at hchan
      exact absurd hchan hch
  · rcases hc with e | e
    · rw [e] at hdir
      exact absurd rfl hdir
    · rw [e] at hchan
      simp only at hchan
      exact absurd hchan.symm hch
  · rcases hc with e | e
    · rw [e] at hdir
      exact absurd rfl hdir
    · rw [e]

/-- Witness for `pair_mutual_exclusion` at the S2/M4 pair with `lx = 0.5` and
empty command history. -/
theorem pair_mutual_exclusion_witness :
    motorChannel Motor.S2 ≠ motorChannel Motor.M4 ∧
    (((pairStep Motor.S2 Motor.M4 (1/2) (fun _ => none)).1.countP
        (fun c => c.dir != Direction.s)) ≤ 1 ∧
     (∀ c ∈ (pairStep Motor.S2 Motor.M4 (1/2) (fun _ => none)).1,
        c.dir ≠ Direction.s → c.channel = motorChannel Motor.S2 →
        (pairStep Motor.S2 Motor.M4 (1/2) (fun _ => none)).1 =
          [stopCmd Motor.M4, c]) ∧
     (∀ c ∈ (pairStep Motor.S2 Motor.M4 (1/2) (fun _ => none)).1,
        c.dir ≠ Direction.s → c.channel = motorChannel Motor.M4 →
        (pairStep Motor.S2 Motor.M4 (1/2) (fun _ => none)).1 =
          [stopCmd Motor.S2, c])) :=
  ⟨by decide,
   pair_mutual_exclusion Motor.S2 Motor.M4 (1/2) (fun _ => none) (by decide)⟩

/-- A command history in which the last command sent on channel 4 (M4) is
already M4's stop, while S2 was last driven forward. -/
def dupLast : Motor → Option Command := fun m =>
  if m = Motor.M4 then some (stopCmd Motor.M4)
  else if m = Motor.S2 then some ⟨motorChannel Motor.S2, Direction.f, 100⟩
  else none

/-- C8 fails as stated: with history `dupLast`, a deadzone tick of the S2/M4
bend section re-sends M4's stop even though it is identical to the last
command sent on that channel (the guard compares only jointly, line 611). -/
theorem command_dedup_claim_false :
    stopCmd Motor.M4 ∈ (pairStep Motor.S2 Motor.M4 0 dupLast).1 ∧
    dupLast Motor.M4 = some (stopCmd Motor.M4) := by
  constructor
  · norm_num [pairStep, dupLast, JOYSTICK_DEADZONE, stopCmd, motorChannel]
    decide
  · rfl

/-- A bend-pair tick whose drive command (positive side) is already recorded
emits nothing. -/
lemma pairStep_quiet_pos (pos neg : Motor) (v : ℚ) (L : Motor → Option Command)
    (hv1 : v > JOYSTICK_DEADZONE)
    (hL : L pos = some (⟨motorChannel pos, Direction.f, pyInt (|v| * 255)⟩ : Command)) :
    (pairStep pos neg v L).1 = [] := by
  simp [pairStep, hv1, hL]

/-- A bend-pair tick whose drive command (negative side) is already recorded
emits nothing. -/
lemma pairStep_quiet_neg (pos neg : Motor) (v : ℚ) (L : Motor → Option Command)
    (hv1 : ¬ v > JOYSTICK_DEADZONE) (hv2 : v < -JOYSTICK_DEADZONE)
    (hL : L neg = some (⟨motorChannel neg, Direction.f, pyInt (|v| * 255)⟩ : Command)) :
    (pairStep pos neg v L).1 = [] := by
  simp [pairStep, hv1, hv2, hL]

/-- A deadzone bend-pair tick with both stops already recorded emits
nothing. -/
lemma pairStep_quiet_stop (pos neg : Motor) (v : ℚ) (L : Motor → Option Command)
    (hv1 : ¬ v > JOYSTICK_DEADZONE) (hv2 : ¬ v < -JOYSTICK_DEADZONE)
    (hLn : L neg = some (stopCmd neg)) (hLp : L pos = some (stopCmd pos)) :
    (pairStep pos neg v L).1 = [] := by
  simp [pairStep, hv1, hv2, hLn, hLp]

/-- A repeated bend-pair tick (same stick value, history as left by the
previous tick) emits nothing. -/
lemma pairStep_repeat (pos neg : Motor) (v : ℚ) (last : Motor → Option Command)
    (hpn : pos ≠ neg) :
    (pairStep pos neg v (pairStep pos neg v last).2).1 = [] := by
  by_cases hv1 : v > JOYSTICK_DEADZONE
  · refine pairStep_quiet_pos pos neg v _ hv1 ?_
    by_cases hc1 : last pos ≠
        some (⟨motorChannel pos, Direction.f, pyInt (|v| * 255)⟩ : Command)
    · simp [pairStep, hv1, hc1, Function.update_apply, hpn]
    · push_neg at hc1
      simp [pairStep, hv1, hc1]
  · by_cases hv2 : v < -JOYSTICK_DEADZONE
    · refine pairStep_quiet_neg pos neg v _ hv1 hv2 ?_
      by_cases hc2 : last neg ≠
          some (⟨motorChannel neg, Direction.f, pyInt (|v| * 255)⟩ : Command)
      · simp [pairStep, hv1, hv2, hc2, Function.update_apply, Ne.symm hpn]
      · push_neg at hc2
        simp [pairStep, hv1, hv2, hc2]
    · refine pairStep_quiet_stop pos neg v _ hv1 hv2 ?_ ?_
      · by_cases hs : last neg ≠ some (stopCmd neg) ∨ last pos ≠ some (stopCmd pos)
        · simp [pairStep, hv1, hv2, hs, Function.update_apply, hpn, Ne.symm hpn]
        · push_neg at hs
          simp [pairStep, hv1, hv2, hs.1, hs.2]
      · by_cases hs : last neg ≠ some (stopCmd neg) ∨ last pos ≠ some (stopCmd pos)
        · simp [pairStep, hv1, hv2, hs, Function.update_apply, hpn, Ne.symm hpn]
        · push_neg at hs
          simp [pairStep, hv1, hv2, hs.1, hs.2]

/-- C8 amended: on every singly-driven channel (M1, M2, S1 and each hold-mode
dispatch) a command is written only when it differs from the last command sent
on that channel, and re-resolving the identical command in the next tick
causes no further write (so an identical command in two successive ticks is
written exactly once); the bend-pair sections also go quiet on a repeated
tick, but their partner-stop writes are deduplicated only against the pair
jointly (see `command_dedup_claim_false`). -/
theorem command_dedup (m : Motor) (cmd : Command) (last : Motor → Option Command)
    (pos neg : Motor) (v : ℚ) (hpn : pos ≠ neg) :
    ((dedupSend m cmd last).1 = if last m = some cmd then [] else [cmd]) ∧
    ((dedupSend m cmd (dedupSend m cmd last).2).1 = []) ∧
    ((pairStep pos neg v (pairStep pos neg v last).2).1 = []) := by
  refine ⟨?_, ?_, pairStep_repeat pos neg v last hpn⟩
  · unfold dedupSend
    by_cases h : last m = some cmd
    · simp [h]
    · simp [h]
  · by_cases h : last m = some cmd
    · simp [dedupSend, h]
    · simp [dedupSend, h, Function.update_same]

/-- Witness for `command_dedup`: the M1 channel with empty history, and the
S2/M4 pair driven at `lx = 0.5` for two ticks. -/
theorem command_dedup_witness :
    ((dedupSend Motor.M1 (stopCmd Motor.M1) (fun _ => none)).1 =
       if (none : Option Command) = some (stopCmd Motor.M1) then []
       else [stopCmd Motor.M1]) ∧
    ((dedupSend Motor.M1 (stopCmd Motor.M1)
        (dedupSend Motor.M1 (stopCmd Motor.M1) (fun _ => none)).2).1 = []) ∧
    ((pairStep Motor.S2 Motor.M4 (1/2)
        (pairStep Motor.S2 Motor.M4 (1/2) (fun _ => none)).2).1 = []) :=
  command_dedup Motor.M1 (stopCmd Motor.M1) (fun _ => none) Motor.S2 Motor.M4
    (1/2) (by decide)

/-! ### Debounce guard, source lines 221–227 (state), 544–561 (buttons) and
563–573 (directional pad)

`last_press_times` is a dict with thirteen keys, all initialised to 0.  Each
button-down handler fires its axis-table action only when
`current_time - last_press_times[k] > delay` and then stores `current_time`;
the four `JOYHATMOTION` (directional-pad) handlers at lines 570–573 call
`_toggle_pid` directly, consulting no timestamp at all. -/

/-- The `self.last_press_times` dict (source lines 221–225). -/
structure LastPressTimes where
  dpad_down : ℚ
  dpad_up : ℚ
  dpad_right : ℚ
  dpad_left : ℚ
  A : ℚ
  B : ℚ
  X : ℚ
  Y : ℚ
  L_STICK : ℚ
  R_STICK : ℚ
  BACK : ℚ
  LB : ℚ
  RB : ℚ
deriving DecidableEq, Repr

/-- All timestamps start at 0 (source lines 221–225). -/
def initLastPressTimes : LastPressTimes :=
  ⟨0, 0, 0, 0, 0, 0, 0, 0, 0, 0, 0, 0, 0⟩

/-- The discrete controls whose down-events trigger axis-table actions. -/
inductive Control
  | A | B | X | Y | L_STICK | R_STICK | BACK
  | DPAD_UP | DPAD_DOWN | DPAD_LEFT | DPAD_RIGHT
deriving DecidableEq, Repr

/-- One trigger attempt for a discrete control at time `now`: returns whether
the axis-table action fires, and the new timestamp state.  Mirrors the
`elif` chain of lines 548–561 (face buttons and stick clicks with
`BUTTON_DEBOUNCE_DELAY`, BACK with `DPAD_DEBOUNCE_DELAY`) and the hat-motion
handlers of lines 570–573, which fire unconditionally. -/
def tryFire (c : Control) (now : ℚ) (t : LastPressTimes) :
    Bool × LastPressTimes :=
  match c with
  | .Y =>
    if now - t.Y > BUTTON_DEBOUNCE_DELAY then (true, { t with Y := now })
    else (false, t)
  | .B =>
    if now - t.B > BUTTON_DEBOUNCE_DELAY then (true, { t with B := now })
    else (false, t)
  | .X =>
    if now - t.X > BUTTON_DEBOUNCE_DELAY then (true, { t with X := now })
    else (false, t)
  | .A =>
    if now - t.A > BUTTON_DEBOUNCE_DELAY then (true, { t with A := now })
    else (false, t)
  | .R_STICK =>
    if now - t.R_STICK > BUTTON_DEBOUNCE_DELAY then (true, { t with R_STICK := now })
    else (false, t)
  | .L_STICK =>
    if now - t.L_STICK > BUTTON_DEBOUNCE_DELAY then (true, { t with L_STICK := now })
    else (false, t)
  | .BACK =>
    if now - t.BACK > DPAD_DEBOUNCE_DELAY then (true, { t with BACK := now })
    else (false, t)
  | .DPAD_UP => (true, t)
  | .DPAD_DOWN => (true, t)
  | .DPAD_LEFT => (true, t)
  | .DPAD_RIGHT => (true, t)

/-- Whether a control is one of the four directional-pad events. -/
def Control.isDpad : Control → Bool
  | .DPAD_UP | .DPAD_DOWN | .DPAD_LEFT | .DPAD_RIGHT => true
  | _ => false

/-- The debounce window the source uses for a (non-dpad) control. -/
def Control.window : Control → ℚ
  | .BACK => DPAD_DEBOUNCE_DELAY
  | _ => BUTTON_DEBOUNCE_DELAY

/-- The stored timestamp of a control. -/
def Control.lastOf (c : Control) (t : LastPressTimes) : ℚ :=
  match c with
  | .A => t.A
  | .B => t.B
  | .X => t.X
  | .Y => t.Y
  | .L_STICK => t.L_STICK
  | .R_STICK => t.R_STICK
  | .BACK => t.BACK
  | .DPAD_UP => t.dpad_up
  | .DPAD_DOWN => t.dpad_down
  | .DPAD_LEFT => t.dpad_left
  | .DPAD_RIGHT => t.dpad_right

/-- Store a timestamp for a control. -/
def Control.setLast (c : Control) (t : LastPressTimes) (now : ℚ) :
    LastPressTimes :=
  match c with
  | .A => { t with A := now }
  | .B => { t with B := now }
  | .X => { t with X := now }
  | .Y => { t with Y := now }
  | .L_STICK => { t with L_STICK := now }
  | .R_STICK => { t with R_STICK := now }
  | .BACK => { t with BACK := now }
  | .DPAD_UP => { t with dpad_up := now }
  | .DPAD_DOWN => { t with dpad_down := now }
  | .DPAD_LEFT => { t with dpad_left := now }
  | .DPAD_RIGHT => { t with dpad_right := now }

/-- C4 fails as stated: a directional-pad attempt at `now = 0.1` with stored
timestamp 0 fires although `now - lastTriggerTimestamp = 0.1` does not exceed
the 500 ms window the claim assigns to directional-pad events — the hat-motion
handlers consult no timestamp. -/
theorem debounce_claim_false :
    (tryFire Control.DPAD_RIGHT (1/10) initLastPressTimes).1 = true ∧
    ¬ ((1/10 : ℚ) - Control.DPAD_RIGHT.lastOf initLastPressTimes >
        DPAD_DEBOUNCE_DELAY) := by
  constructor
  · rfl
  · norm_num [Control.lastOf, initLastPressTimes, DPAD_DEBOUNCE_DELAY]

/-- C4 amended: for face buttons and stick clicks (300 ms window) and the
global-reset BACK button (500 ms window), an attempt fires iff
`now - lastTriggerTimestamp` exceeds the window; a firing attempt stores `now`
and a rejected attempt mutates nothing.  Directional-pad events are not
debounced: they always fire and never touch the timestamp table. -/
theorem debounce_guard (c : Control) (now : ℚ) (t : LastPressTimes) :
    (c.isDpad = false →
       (((tryFire c now t).1 = true) ↔ now - c.lastOf t > c.window) ∧
       ((tryFire c now t).1 = true → (tryFire c now t).2 = c.setLast t now) ∧
       ((tryFire c now t).1 = false → (tryFire c now t).2 = t)) ∧
    (c.isDpad = true → tryFire c now t = (true, t)) := by
  cases c <;>
    refine ⟨fun hnd => ?_, fun hd => ?_⟩ <;>
    first
      | exact absurd hnd (by decide)
      | exact absurd hd (by decide)
      | rfl
      | (refine ⟨?_, ?_, ?_⟩ <;>
          simp only [tryFire, Control.lastOf, Control.setLast, Control.window] <;>
          split_ifs with hcond <;>
          simp_all)

/-- Witness for `debounce_guard`: button A pressed at `t = 1` with fresh
timestamp state. -/
theorem debounce_guard_witness :
    (Control.A.isDpad = false →
       (((tryFire Control.A 1 initLastPressTimes).1 = true) ↔
          (1 : ℚ) - Control.A.lastOf initLastPressTimes > Control.A.window) ∧
       ((tryFire Control.A 1 initLastPressTimes).1 = true →
          (tryFire Control.A 1 initLastPressTimes).2 =
            Control.A.setLast initLastPressTimes 1) ∧
       ((tryFire Control.A 1 initLastPressTimes).1 = false →
          (tryFire Control.A 1 initLastPressTimes).2 = initLastPressTimes)) ∧
    (Control.A.isDpad = true → tryFire Control.A 1 initLastPressTimes = (true, initLastPressTimes)) :=
  debounce_guard Control.A 1 initLastPressTimes

/-! ### The six holdable axes

`self.pid_controllers`, `self.pid_states` and `self.current_encoders` are
dicts with the fixed keys M1, M2, M3, M4, S2, S3 (S1, the linear actuator,
has no hold mode and no encoder).  They are modelled as six-field tables. -/

/-- A holdable axis (a key of `self.pid_states`). -/
inductive HMotor
  | M1 | M2 | M3 | M4 | S2 | S3
deriving DecidableEq, Repr

/-- The motor a holdable axis drives. -/
def HMotor.toMotor : HMotor → Motor
  | .M1 => Motor.M1
  | .M2 => Motor.M2
  | .M3 => Motor.M3
  | .M4 => Motor.M4
  | .S2 => Motor.S2
  | .S3 => Motor.S3

/-- A table with one entry per holdable axis, in the dict's key order. -/
structure Hold6 (α : Type) where
  m1 : α
  m2 : α
  m3 : α
  m4 : α
  s2 : α
  s3 : α
deriving DecidableEq, Repr

/-- Dict lookup. -/
def Hold6.get {α : Type} (h : Hold6 α) : HMotor → α
  | .M1 => h.m1
  | .M2 => h.m2
  | .M3 => h.m3
  | .M4 => h.m4
  | .S2 => h.s2
  | .S3 => h.s3

/-- Dict store. -/
def Hold6.set {α : Type} (h : Hold6 α) : HMotor → α → Hold6 α
  | .M1, v => { h with m1 := v }
  | .M2, v => { h with m2 := v }
  | .M3, v => { h with m3 := v }
  | .M4, v => { h with m4 := v }
  | .S2, v => { h with s2 := v }
  | .S3, v => { h with s3 := v }

/-! ### Telemetry decoder, source lines 640–648 (`read_from_serial`) and
661–671 (`process_gui_queue`, `update_encoders` branch)

Lines are modelled as `List Char`.  `splitOnChar` models Python
`str.split(sep)` for a one-character separator; `pyParseInt` models Python
`int()` on the whitespace-free, underscore-free strings the protocol carries
(an optional sign followed by at least one decimal digit). -/

/-- Python `str.split(sep)` for a single-character separator. -/
def splitOnChar (sep : Char) : List Char → List (List Char)
  | [] => [[]]
  | c :: rest =>
    if c = sep then [] :: splitOnChar sep rest
    else
      match splitOnChar sep rest with
      | [] => [[c]]
      | h :: t => (c :: h) :: t

/-- `l` is non-empty and all decimal digits. -/
def isDigits (l : List Char) : Bool := !l.isEmpty && l.all (fun c => c.isDigit)

/-- Numeric value of a digit string. -/
def digitsVal (l : List Char) : ℕ :=
  l.foldl (fun n c => 10 * n + (c.toNat - 48)) 0

/-- Python `int()` on a whitespace-free string: optional sign, then digits;
anything else raises `ValueError`, modelled as `none`. -/
def pyParseInt (s : List Char) : Option ℤ :=
  match s with
  | '-' :: rest => if isDigits rest then some (-(digitsVal rest : ℤ)) else none
  | '+' :: rest => if isDigits rest then some ((digitsVal rest : ℤ)) else none
  | l => if isDigits l then some ((digitsVal l : ℤ)) else none

/-- Python `str.startswith` for lists of characters. -/
def listStartsWith : List Char → List Char → Bool
  | [], _ => true
  | _ :: _, [] => false
  | p :: ps, c :: cs => p == c && listStartsWith ps cs

/-- Line 645: a serial line is forwarded to the decoder only if it starts
with the marker `"E1:"`. -/
def acceptsLine (line : List Char) : Bool := listStartsWith "E1:".toList line

/-- `encoder_map` (line 662): recognized keys and the axes they update. -/
def encoderKeyMotor (k : List Char) : Option HMotor :=
  if k = "E1".toList then some HMotor.M1
  else if k = "E2".toList then some HMotor.M2
  else if k = "E3".toList then some HMotor.M3
  else if k = "E4".toList then some HMotor.M4
  else if k = "E5".toList then some HMotor.S2
  else if k = "E6".toList then some HMotor.S3
  else none

/-- Lines 664–671, effect of one `part` on `self.current_encoders`.  A token
is skipped (state unchanged) when its colon-split arity is not 2
(`ValueError` on unpacking), when `int(key[1:])` or `int(val_str)` fails
(`ValueError`), or when `encoder_values[int(key[1:]) - 1]` is out of range
(`IndexError`; Python accepts indices `-6..5` for the six-element list).
Unknown but parseable keys pass `encoder_map.get` and update nothing. -/
def processToken (enc : Hold6 ℤ) (part : List Char) : Hold6 ℤ :=
  match splitOnChar ':' part with
  | [key, val_str] =>
    match pyParseInt (key.drop 1) with
    | none => enc
    | some idx =>
      match pyParseInt val_str with
      | none => enc
      | some v =>
        if -6 ≤ idx - 1 ∧ idx - 1 ≤ 5 then
          match encoderKeyMotor key with
          | some m => enc.set m v
          | none => enc
        else enc
  | _ => enc

/-- Lines 663–671: one accepted frame updates the axis table token by
token. -/
def processFrame (enc : Hold6 ℤ) (line : List Char) : Hold6 ℤ :=
  (splitOnChar '|' line).foldl processToken enc

/-- C9: the frame with a malformed second token (`"Ex:bad"`: non-numeric key
index and value, unknown key) is accepted by the `"E1:"` marker check, and
decoding it updates every mapped axis except the malformed token's — M2 keeps
its previous position while M1, M3, M4, S2, S3 are updated; the well-formed
frame updates all six axes. -/
theorem telemetry_malformed_token_skipped :
    acceptsLine "E1:10|Ex:bad|E3:30|E4:40|E5:50|E6:60".toList = true ∧
    (∀ enc : Hold6 ℤ,
       processFrame enc "E1:10|Ex:bad|E3:30|E4:40|E5:50|E6:60".toList =
         { enc with m1 := 10, m3 := 30, m4 := 40, s2 := 50, s3 := 60 }) ∧
    (∀ enc : Hold6 ℤ,
       processFrame enc "E1:10|E2:20|E3:30|E4:40|E5:50|E6:60".toList =
         ⟨10, 20, 30, 40, 50, 60⟩) := by
  refine ⟨rfl, fun enc => ?_, fun enc => ?_⟩ <;>
    obtain ⟨a, b, c, d, e, f⟩ := enc <;> rfl

/-! ### Axis state table and hold-mode toggles, source lines 455–502

`self.pid_states[m] = {'enabled': bool, 'target': int}`.  The serial side
effect of `_update_pid_ui` (line 464) — an explicit `"<channel>:s:0\n"` when
the axis is disabled — is the emission tracked alongside each operation. -/

/-- One entry of `self.pid_states`. -/
structure AxisState where
  enabled : Bool
  target : ℤ
deriving DecidableEq, Repr

/-- The state the toggle operations touch: axis table, PID controllers,
current encoder readings and the `_all_motors_zero_active` flag. -/
structure SystemState where
  pid_states : Hold6 AxisState
  pid_controllers : Hold6 PIDController
  current_encoders : Hold6 ℤ
  all_motors_zero_active : Bool
deriving DecidableEq, Repr

/-- Lines 455–465 (`_update_pid_ui`): serial commands emitted when refreshing
the panel of axis `m` — a stop on the axis's channel when it is disabled,
nothing when it is enabled. -/
def updatePidUiEmit (st : SystemState) (m : HMotor) : List Command :=
  if (st.pid_states.get m).enabled then [] else [stopCmd m.toMotor]

/-- Lines 467–476 (`_toggle_pid`): flip `enabled`; when transitioning to
enabled, optionally zero the target and re-prime the PID at the target; then
refresh the panel (emitting a stop if now disabled). -/
def toggle_pid (st : SystemState) (m : HMotor) (set_to_zero : Bool) :
    SystemState × List Command :=
  let s := st.pid_states.get m
  let s1 : AxisState := { s with enabled := !s.enabled }
  if s1.enabled then
    let s2 : AxisState := if set_to_zero then { s1 with target := 0 } else s1
    let st' : SystemState := { st with
      pid_states := st.pid_states.set m s2,
      pid_controllers := st.pid_controllers.set m
        ((st.pid_controllers.get m).set_setpoint (s2.target : ℚ)) }
    (st', updatePidUiEmit st' m)
  else
    let st' : SystemState := { st with pid_states := st.pid_states.set m s1 }
    (st', updatePidUiEmit st' m)

/-- Lines 478–490 (`_toggle_save_pos_pid`): disable if enabled; otherwise
enable holding the current encoder position, re-priming the PID there; then
refresh the panel. -/
def toggle_save_pos_pid (st : SystemState) (m : HMotor) :
    SystemState × List Command :=
  let s := st.pid_states.get m
  if s.enabled then
    let st' : SystemState :=
      { st with pid_states := st.pid_states.set m { s with enabled := false } }
    (st', updatePidUiEmit st' m)
  else
    let tgt := st.current_encoders.get m
    let st' : SystemState := { st with
      pid_states := st.pid_states.set m ⟨true, tgt⟩,
      pid_controllers := st.pid_controllers.set m
        ((st.pid_controllers.get m).set_setpoint (tgt : ℚ)) }
    (st', updatePidUiEmit st' m)

/-- The iteration order of `for motor in self.pid_controllers` (line 496). -/
def holdOrder : List HMotor :=
  [HMotor.M1, HMotor.M2, HMotor.M3, HMotor.M4, HMotor.S2, HMotor.S3]

/-- Loop body of `toggle_all_pid_zero_mode` (lines 497–502): an axis is
touched only when its `enabled` differs from the desired mode; when turning
on, the target is zeroed and the PID re-primed at 0; the panel refresh emits
a stop for an axis being turned off. -/
def globalStepMotor (active : Bool) (acc : SystemState × List Command)
    (m : HMotor) : SystemState × List Command :=
  let st := acc.1
  let s := st.pid_states.get m
  if s.enabled != active then
    let st' : SystemState :=
      if active then
        { st with pid_states := st.pid_states.set m ⟨active, 0⟩,
                  pid_controllers := st.pid_controllers.set m
                    ((st.pid_controllers.get m).set_setpoint 0) }
      else { st with pid_states := st.pid_states.set m ⟨active, s.target⟩ }
    (st', acc.2 ++ updatePidUiEmit st' m)
  else acc

/-- Lines 492–502 (`toggle_all_pid_zero_mode`): flip the global flag, then
sweep all holdable axes. -/
def toggle_all_pid_zero_mode (st : SystemState) : SystemState × List Command :=
  let active := !st.all_motors_zero_active
  let st0 : SystemState := { st with all_motors_zero_active := active }
  holdOrder.foldl (globalStepMotor active) (st0, [])

/-- The serial commands one sweep iteration emits for axis `m`, in terms of
the state the sweep started from. -/
def emitOf (active : Bool) (st : SystemState) (m : HMotor) : List Command :=
  if (st.pid_states.get m).enabled != active then
    (if active then [] else [stopCmd m.toMotor])
  else []

lemma Hold6.get_set_same {α : Type} (h6 : Hold6 α) (m : HMotor) (v : α) :
    (h6.set m v).get m = v := by
  cases m <;> rfl

lemma Hold6.get_set_ne {α : Type} (h6 : Hold6 α) (m m' : HMotor) (v : α)
    (h : m ≠ m') : (h6.set m' v).get m = h6.get m := by
  cases m <;> cases m' <;> first | exact absurd rfl h | rfl

lemma globalStep_ne (active : Bool) (acc : SystemState × List Command)
    (m m' : HMotor) (h : m ≠ m') :
    ((globalStepMotor active acc m').1.pid_states.get m =
       acc.1.pid_states.get m) ∧
    ((globalStepMotor active acc m').1.pid_controllers.get m =
       acc.1.pid_controllers.get m) := by
  refine ⟨?_, ?_⟩ <;> simp only [globalStepMotor] <;> split_ifs <;>
    simp [Hold6.get_set_ne _ _ _ _ h]

lemma globalStep_az (active : Bool) (acc : SystemState × List Command)
    (m : HMotor) :
    (globalStepMotor active acc m).1.all_motors_zero_active =
      acc.1.all_motors_zero_active := by
  simp only [globalStepMotor]
  split_ifs <;> rfl

lemma globalStep_self (active : Bool) (acc : SystemState × List Command)
    (m : HMotor) :
    ((globalStepMotor active acc m).1.pid_states.get m =
       (if (acc.1.pid_states.get m).enabled != active then
          (if active then (⟨true, 0⟩ : AxisState)
           else ⟨false, (acc.1.pid_states.get m).target⟩)
        else acc.1.pid_states.get m)) ∧
    ((globalStepMotor active acc m).1.pid_controllers.get m =
       (if (acc.1.pid_states.get m).enabled != active then
          (if active then (acc.1.pid_controllers.get m).set_setpoint 0
           else acc.1.pid_controllers.get m)
        else acc.1.pid_controllers.get m)) ∧
    ((globalStepMotor active acc m).2 = acc.2 ++ emitOf active acc.1 m) := by
  refine ⟨?_, ?_, ?_⟩ <;>
    simp only [globalStepMotor, emitOf, updatePidUiEmit] <;> split_ifs <;>
    simp_all [Hold6.get_set_same]

lemma fold_step_notmem (active : Bool) (L : List HMotor)
    (acc : SystemState × List Command) (m : HMotor) (hm : m ∉ L) :
    ((L.foldl (globalStepMotor active) acc).1.pid_states.get m =
       acc.1.pid_states.get m) ∧
    ((L.foldl (globalStepMotor active) acc).1.pid_controllers.get m =
       acc.1.pid_controllers.get m) := by
  induction L generalizing acc with
  | nil => exact ⟨rfl, rfl⟩
  | cons a L ih =>
    simp only [List.mem_cons, not_or] at hm
    have h1 := globalStep_ne active acc m a hm.1
    have h2 := ih (globalStepMotor active acc a) hm.2
    exact ⟨h2.1.trans h1.1, h2.2.trans h1.2⟩

lemma fold_step_az (active : Bool) (L : List HMotor)
    (acc : SystemState × List Command) :
    (L.foldl (globalStepMotor active) acc).1.all_motors_zero_active =
      acc.1.all_motors_zero_active := by
  induction L generalizing acc with
  | nil => rfl
  | cons a L ih =>
    rw [List.foldl_cons]
    exact (ih (globalStepMotor active acc a)).trans (globalStep_az active acc a)

lemma fold_step_mem (active : Bool) (L : List HMotor)
    (acc : SystemState × List Command) (m : HMotor) (hnd : L.Nodup)
    (hm : m ∈ L) :
    ((L.foldl (globalStepMotor active) acc).1.pid_states.get m =
       (if (acc.1.pid_states.get m).enabled != active then
          (if active then (⟨true, 0⟩ : AxisState)
           else ⟨false, (acc.1.pid_states.get m).target⟩)
        else acc.1.pid_states.get m)) ∧
    ((L.foldl (globalStepMotor active) acc).1.pid_controllers.get m =
       (if (acc.1.pid_states.get m).enabled != active then
          (if active then (acc.1.pid_controllers.get m).set_setpoint 0
           else acc.1.pid_controllers.get m)
        else acc.1.pid_controllers.get m)) := by
  induction L generalizing acc with
  | nil => exact absurd hm (List.not_mem_nil m)
  | cons a L ih =>
    rw [List.nodup_cons] at hnd
    rcases List.mem_cons.mp hm with he | hmL
    · subst he
      have hfr := fold_step_notmem active L (globalStepMotor active acc m) m hnd.1
      have hs := globalStep_self active acc m
      rw [List.foldl_cons]
      exact ⟨hfr.1.trans hs.1, hfr.2.trans hs.2.1⟩
    · have hma : m ≠ a := fun he => hnd.1 (he ▸ hmL)
      have hne := globalStep_ne active acc m a hma
      have hrec := ih (globalStepMotor active acc a) hnd.2 hmL
      rw [List.foldl_cons]
      rw [hne.1, hne.2] at hrec
      exact hrec

lemma fold_step_emit (active : Bool) (L : List HMotor)
    (acc : SystemState × List Command) (hnd : L.Nodup) :
    (L.foldl (globalStepMotor active) acc).2 =
      acc.2 ++ (L.map (emitOf active acc.1)).flatten := by
  induction L generalizing acc with
  | nil => simp
  | cons a L ih =>
    rw [List.nodup_cons] at hnd
    rw [List.foldl_cons, ih (globalStepMotor active acc a) hnd.2]
    have hs := (globalStep_self active acc a).2.2
    have hmap : L.map (emitOf active (globalStepMotor active acc a).1) =
        L.map (emitOf active acc.1) := by
      apply List.map_congr_left
      intro x hx
      have hxa : x ≠ a := fun he => hnd.1 (he ▸ hx)
      unfold emitOf
      rw [(globalStep_ne active acc x a hxa).1]
    rw [hmap, hs, List.map_cons, List.flatten_cons, List.append_assoc]

lemma flatten_map_ite {α β : Type} (p : α → Bool) (f : α → β) (L : List α) :
    (L.map (fun a => if p a then [f a] else [])).flatten = (L.filter p).map f := by
  induction L with
  | nil => rfl
  | cons a L ih => by_cases h : p a <;> simp [h, ih]

lemma flatten_map_nil {α β : Type} (L : List α) :
    (L.map (fun _ => ([] : List β))).flatten = [] := by
  induction L with
  | nil => rfl
  | cons a L ih =>
    simp only [List.map_cons, List.flatten_cons, List.nil_append]
    exact ih

/-- A sample controller state with nonzero setpoint and primed timestamp. -/
def exCtrl : PIDController := ⟨1, 0, 0, (-255, 255), 42, 0, 7, some 3⟩

/-- A state in which M1 is already holding at target 50 (PID primed at
setpoint 42) and the global-zero mode is off. -/
def c3State : SystemState :=
  { pid_states := ⟨⟨true, 50⟩, ⟨false, 0⟩, ⟨false, 0⟩, ⟨false, 0⟩, ⟨false, 0⟩,
      ⟨false, 0⟩⟩,
    pid_controllers := ⟨exCtrl, exCtrl, exCtrl, exCtrl, exCtrl, exCtrl⟩,
    current_encoders := ⟨0, 0, 0, 0, 0, 0⟩,
    all_motors_zero_active := false }

/-- C3 fails as stated: activating the global-zero toggle from `c3State`
leaves axis M1 — which was already enabled with target 50 — at target 50 with
its PID untouched (setpoint still 42), because the loop skips axes whose
`enabled` flag already matches; the claim requires every holdable axis to end
at target 0 with its PID re-primed at setpoint 0. -/
theorem global_zero_claim_false :
    c3State.all_motors_zero_active = false ∧
    ((toggle_all_pid_zero_mode c3State).1.pid_states.get HMotor.M1).enabled = true ∧
    ((toggle_all_pid_zero_mode c3State).1.pid_states.get HMotor.M1).target = 50 ∧
    ((toggle_all_pid_zero_mode c3State).1.pid_states.get HMotor.M1).target ≠ 0 ∧
    (toggle_all_pid_zero_mode c3State).1.pid_controllers.get HMotor.M1 =
      c3State.pid_controllers.get HMotor.M1 ∧
    ((toggle_all_pid_zero_mode c3State).1.pid_controllers.get
        HMotor.M1).setpoint ≠ 0 := by
  refine ⟨rfl, rfl, rfl, by decide, rfl, ?_⟩
  show (42 : ℚ) ≠ 0
  norm_num

/-- C3 amended: activating the global-zero toggle forces `enabled = true`,
`target = 0` and a PID re-primed at setpoint 0 for every holdable axis that
was disabled, but leaves an already-enabled axis (and its target and PID)
completely untouched; deactivating forces `enabled = false` on every axis,
leaving targets and PIDs untouched.  Only axes whose `enabled` flag changes
are modified or re-primed. -/
theorem global_zero_toggle (st : SystemState) (m : HMotor) :
    (toggle_all_pid_zero_mode st).1.all_motors_zero_active =
      !st.all_motors_zero_active ∧
    (st.all_motors_zero_active = false →
       ((st.pid_states.get m).enabled = false →
          (toggle_all_pid_zero_mode st).1.pid_states.get m = ⟨true, 0⟩ ∧
          (toggle_all_pid_zero_mode st).1.pid_controllers.get m =
            (st.pid_controllers.get m).set_setpoint 0) ∧
       ((st.pid_states.get m).enabled = true →
          (toggle_all_pid_zero_mode st).1.pid_states.get m = st.pid_states.get m ∧
          (toggle_all_pid_zero_mode st).1.pid_controllers.get m =
            st.pid_controllers.get m)) ∧
    (st.all_motors_zero_active = true →
       ((toggle_all_pid_zero_mode st).1.pid_states.get m).enabled = false ∧
       ((toggle_all_pid_zero_mode st).1.pid_states.get m).target =
         (st.pid_states.get m).target ∧
       (toggle_all_pid_zero_mode st).1.pid_controllers.get m =
         st.pid_controllers.get m) := by
  have hnd : holdOrder.Nodup := by decide
  have hm : m ∈ holdOrder := by cases m <;> decide
  obtain ⟨hps, hpc⟩ := fold_step_mem (!st.all_motors_zero_active) holdOrder
      ({ st with all_motors_zero_active := !st.all_motors_zero_active }, []) m
      hnd hm
  have haz := fold_step_az (!st.all_motors_zero_active) holdOrder
      ({ st with all_motors_zero_active := !st.all_motors_zero_active }, [])
  simp only [toggle_all_pid_zero_mode]
  refine ⟨haz, fun h0 => ⟨fun hen => ⟨?_, ?_⟩, fun hen => ⟨?_, ?_⟩⟩,
    fun h1 => ⟨?_, ?_, ?_⟩⟩
  · rw [hps]
    simp [h0, hen]
  · rw [hpc]
    simp [h0, hen]
  · rw [hps]
    simp [h0, hen]
  · rw [hpc]
    simp [h0, hen]
  · rw [hps]
    cases hE : (st.pid_states.get m).enabled <;> simp [h1, hE]
  · rw [hps]
    cases hE : (st.pid_states.get m).enabled <;> simp [h1, hE]
  · rw [hpc]
    simp [h1]

/-- Witness for `global_zero_toggle`: activating from `c3State` turns the
disabled axis M2 on at target 0. -/
theorem global_zero_toggle_witness :
    (toggle_all_pid_zero_mode c3State).1.pid_states.get HMotor.M2 =
      (⟨true, 0⟩ : AxisState) :=
  (((global_zero_toggle c3State HMotor.M2).2.1 rfl).1 rfl).1

/-- C10: every transition of a holdable axis from hold mode to disabled —
via `_toggle_pid`, `_toggle_save_pos_pid` or global deactivation — emits the
explicit stop command `"<channel>:s:0\n"` on the axis's channel (for the
global sweep: one stop per previously enabled axis, in dict order), while
transitions into hold mode emit no serial command. -/
theorem disable_hold_sends_stop (st : SystemState) (m : HMotor) (z : Bool) :
    ((st.pid_states.get m).enabled = true →
       (toggle_pid st m z).2 = [stopCmd m.toMotor] ∧
       (toggle_save_pos_pid st m).2 = [stopCmd m.toMotor]) ∧
    ((st.pid_states.get m).enabled = false →
       (toggle_pid st m z).2 = [] ∧
       (toggle_save_pos_pid st m).2 = []) ∧
    (st.all_motors_zero_active = true →
       (toggle_all_pid_zero_mode st).2 =
         (holdOrder.filter (fun m' => (st.pid_states.get m').enabled)).map
           (fun m' => stopCmd m'.toMotor)) ∧
    (st.all_motors_zero_active = false →
       (toggle_all_pid_zero_mode st).2 = []) := by
  have hnd : holdOrder.Nodup := by decide
  have hemit := fold_step_emit (!st.all_motors_zero_active) holdOrder
      ({ st with all_motors_zero_active := !st.all_motors_zero_active }, []) hnd
  refine ⟨fun hen => ⟨?_, ?_⟩, fun hen => ⟨?_, ?_⟩, fun h1 => ?_, fun h0 => ?_⟩
  · simp [toggle_pid, updatePidUiEmit, hen, Hold6.get_set_same]
  · simp [toggle_save_pos_pid, updatePidUiEmit, hen, Hold6.get_set_same]
  · cases z <;> simp [toggle_pid, updatePidUiEmit, hen, Hold6.get_set_same]
  · simp [toggle_save_pos_pid, updatePidUiEmit, hen, Hold6.get_set_same]
  · simp only [toggle_all_pid_zero_mode]
    rw [hemit, h1]
    have hpt : List.map (emitOf false
        ({ st with all_motors_zero_active := false } : SystemState)) holdOrder =
        List.map (fun m' => if (st.pid_states.get m').enabled
          then [stopCmd m'.toMotor] else []) holdOrder := by
      apply List.map_congr_left
      intro x hx
      simp [emitOf]
    simp only [Bool.not_true]
    rw [hpt, flatten_map_ite]
    simp
  · simp only [toggle_all_pid_zero_mode]
    rw [hemit, h0]
    simp [emitOf, flatten_map_nil]

/-- Witness for `disable_hold_sends_stop`: toggling the enabled axis M1 off
emits its stop command, and activating the global-zero mode from `c3State`
emits nothing. -/
theorem disable_hold_sends_stop_witness :
    (toggle_pid c3State HMotor.M1 false).2 = [stopCmd Motor.M1] ∧
    (toggle_all_pid_zero_mode c3State).2 = [] :=
  ⟨((disable_hold_sends_stop c3State HMotor.M1 false).1 rfl).1,
   (disable_hold_sends_stop c3State HMotor.M1 false).2.2.2 rfl⟩

end RobotArm
